import Mathlib

/-!
Verification of the shersoft-ltd service-catalogue discovery engine.

This file shallowly embeds the TypeScript sources:
  * `TechMaturityEntityProvider` (account enumeration, per-account stack
    discovery with bounded concurrency, full-replacement mutation),
  * `TechMaturityCatalogProcessor` (per-location stack/function entity
    construction, hashed identities, tag-driven metadata),
  * `TechMaturityCatalogProcessor2` (runtime/function entity construction).

Pure functions of the source become Lean functions; stateful orchestration
becomes explicit state passing or a step relation; fallible code returns
`Except`/`Option`.  Machine-level externals (the shake256 digest, JSON.parse,
encodeURIComponent, UTF-8) are modelled at their documented interfaces with
executable definitions.
-/

namespace SvcCat

/-! ## Basic character / byte utilities -/

/-- Lower-case hex digit for a value `n < 16` (Node `Buffer.toString('hex')`
uses lower case). -/
def hexDigitLower (n : Nat) : Char :=
  if n < 10 then Char.ofNat (48 + n) else Char.ofNat (97 + (n - 10))

/-- Upper-case hex digit for a value `n < 16` (`encodeURIComponent` uses
upper-case percent escapes). -/
def hexDigitUpper (n : Nat) : Char :=
  if n < 10 then Char.ofNat (48 + n) else Char.ofNat (65 + (n - 10))

/-- UTF-8 bytes of one character (the encoding used by `Buffer.from(_, 'utf-8')`
and by percent-encoding). -/
def utf8BytesOfChar (c : Char) : List Nat :=
  let n := c.toNat
  if n < 0x80 then [n]
  else if n < 0x800 then
    [0xC0 ||| (n >>> 6), 0x80 ||| (n &&& 0x3F)]
  else if n < 0x10000 then
    [0xE0 ||| (n >>> 12), 0x80 ||| ((n >>> 6) &&& 0x3F), 0x80 ||| (n &&& 0x3F)]
  else
    [0xF0 ||| (n >>> 18), 0x80 ||| ((n >>> 12) &&& 0x3F),
      0x80 ||| ((n >>> 6) &&& 0x3F), 0x80 ||| (n &&& 0x3F)]

/-- UTF-8 bytes of a string. -/
def utf8Bytes (s : String) : List Nat :=
  s.data.foldr (fun c acc => utf8BytesOfChar c ++ acc) []

/-- Lower-case hex rendering of a byte list, two digits per byte. -/
def hexCharsOfBytes : List Nat → List Char
  | [] => []
  | b :: bs => hexDigitLower (b / 16 % 16) :: hexDigitLower (b % 16) :: hexCharsOfBytes bs

/-- Characters `encodeURIComponent` leaves unescaped: ASCII alphanumerics and
`- _ . ! ~ * ' ( )`. -/
def uriUnreserved (c : Char) : Bool :=
  c.isAlphanum || c == '-' || c == '_' || c == '.' || c == '!' || c == '~' ||
    c == '*' || c == Char.ofNat 39 || c == '(' || c == ')'

/-- Percent-escape a byte list: `%XY` with upper-case hex per byte. -/
def percentEscapeBytes : List Nat → List Char
  | [] => []
  | b :: bs => '%' :: hexDigitUpper (b / 16 % 16) :: hexDigitUpper (b % 16) ::
      percentEscapeBytes bs

/-- Model of JavaScript `encodeURIComponent`: unreserved characters kept,
all others percent-escaped via their UTF-8 bytes. -/
def encodeURIComponent (s : String) : String :=
  String.mk (s.data.foldr
    (fun c acc =>
      (if uriUnreserved c then [c] else percentEscapeBytes (utf8BytesOfChar c)) ++ acc)
    [])

/-- `pat` occurs at the start of `l` (helper for substring containment). -/
def startsWithSeq [DecidableEq α] : List α → List α → Bool
  | _, [] => true
  | [], _ :: _ => false
  | a :: as, b :: bs => a = b && startsWithSeq as bs

/-- `pat` occurs contiguously somewhere in the list: the semantics of
JavaScript `String.prototype.includes`. -/
def hasInfixSeq [DecidableEq α] (pat : List α) : List α → Bool
  | [] => startsWithSeq [] pat
  | c :: cs => startsWithSeq (c :: cs) pat || hasInfixSeq pat cs

/-- JavaScript `haystack.includes(needle)` on strings. -/
def jsIncludes (haystack needle : String) : Bool :=
  hasInfixSeq needle.data haystack.data

/-- JavaScript truthiness of an optional string: `undefined` and the empty
string are falsy, every other string truthy. -/
def jsTruthy : Option String → Bool
  | none => false
  | some s => !(s == "")

/-- JavaScript `x || default` on an optional string. -/
def jsOrElse (x : Option String) (d : String) : String :=
  if jsTruthy x then x.getD d else d

/-- JavaScript-object lookup for an association list built by successive
`obj[key] = value` assignments: a later binding of the same key overwrites an
earlier one. -/
def jsObjLookup {α : Type} (fields : List (String × α)) (k : String) : Option α :=
  fields.foldl (fun acc kv => if kv.1 == k then some kv.2 else acc) none

/-- The tag map built by `Tags.reduce((out, curr) => ...)`. -/
def tagLookup (tags : List (String × String)) (k : String) : Option String :=
  jsObjLookup tags k

/-! ## Digest model

Both processors compute identities with
`crypto.createHash('shake256', { outputLength: 27 }).update(Buffer.from(input, 'utf-8')).digest().toString('hex')`.

Modelled from the spec: Node's `crypto` shake256 digest is an external
library primitive not part of this repository.  Its contract — used by the
source — is that it is a pure, deterministic function of the input bytes
producing exactly `outputLength = 27` bytes.  The concrete mixing arithmetic
below is a stand-in for the real permutation; the determinism and the
27-byte output length are the properties the source relies on, and every
theorem about identities in this file depends only on those two properties
(plus the hex rendering, which is modelled exactly). -/

/-- One output byte of the modelled 27-byte digest. -/
def digestByteAt (input : List Nat) (i : Nat) : Nat :=
  input.foldl (fun h b => (h * 31 + b + (i + 1) * 131) % 256) ((i * 7 + 5) % 256)

/-- Modelled 27-byte digest of a byte string (see the section comment). -/
def digest27 (input : List Nat) : List Nat :=
  (List.range 27).map (digestByteAt input)

/-- `digest(...).toString('hex')` for the 27-byte digest: 54 lower-case hex
characters. -/
def digest27Hex (input : String) : String :=
  String.mk (hexCharsOfBytes (digest27 (utf8Bytes input)))

/-! ## CloudFormation stack statuses

`StackStatus` values from `@aws-sdk/client-cloudformation` that the sources
mention; `statusText` is the wire string of each value. -/

inductive StackStatus where
  | CREATE_COMPLETE | CREATE_FAILED | CREATE_IN_PROGRESS
  | DELETE_COMPLETE | DELETE_FAILED | DELETE_IN_PROGRESS
  | IMPORT_COMPLETE | IMPORT_IN_PROGRESS
  | IMPORT_ROLLBACK_COMPLETE | IMPORT_ROLLBACK_FAILED | IMPORT_ROLLBACK_IN_PROGRESS
  | REVIEW_IN_PROGRESS
  | ROLLBACK_COMPLETE | ROLLBACK_FAILED | ROLLBACK_IN_PROGRESS
  | UPDATE_COMPLETE | UPDATE_COMPLETE_CLEANUP_IN_PROGRESS
  | UPDATE_FAILED | UPDATE_IN_PROGRESS
  | UPDATE_ROLLBACK_COMPLETE | UPDATE_ROLLBACK_COMPLETE_CLEANUP_IN_PROGRESS
  | UPDATE_ROLLBACK_FAILED | UPDATE_ROLLBACK_IN_PROGRESS
deriving DecidableEq

/-- The wire string of a `StackStatus` value. -/
def StackStatus.statusText : StackStatus → String
  | .CREATE_COMPLETE => "CREATE_COMPLETE"
  | .CREATE_FAILED => "CREATE_FAILED"
  | .CREATE_IN_PROGRESS => "CREATE_IN_PROGRESS"
  | .DELETE_COMPLETE => "DELETE_COMPLETE"
  | .DELETE_FAILED => "DELETE_FAILED"
  | .DELETE_IN_PROGRESS => "DELETE_IN_PROGRESS"
  | .IMPORT_COMPLETE => "IMPORT_COMPLETE"
  | .IMPORT_IN_PROGRESS => "IMPORT_IN_PROGRESS"
  | .IMPORT_ROLLBACK_COMPLETE => "IMPORT_ROLLBACK_COMPLETE"
  | .IMPORT_ROLLBACK_FAILED => "IMPORT_ROLLBACK_FAILED"
  | .IMPORT_ROLLBACK_IN_PROGRESS => "IMPORT_ROLLBACK_IN_PROGRESS"
  | .REVIEW_IN_PROGRESS => "REVIEW_IN_PROGRESS"
  | .ROLLBACK_COMPLETE => "ROLLBACK_COMPLETE"
  | .ROLLBACK_FAILED => "ROLLBACK_FAILED"
  | .ROLLBACK_IN_PROGRESS => "ROLLBACK_IN_PROGRESS"
  | .UPDATE_COMPLETE => "UPDATE_COMPLETE"
  | .UPDATE_COMPLETE_CLEANUP_IN_PROGRESS => "UPDATE_COMPLETE_CLEANUP_IN_PROGRESS"
  | .UPDATE_FAILED => "UPDATE_FAILED"
  | .UPDATE_IN_PROGRESS => "UPDATE_IN_PROGRESS"
  | .UPDATE_ROLLBACK_COMPLETE => "UPDATE_ROLLBACK_COMPLETE"
  | .UPDATE_ROLLBACK_COMPLETE_CLEANUP_IN_PROGRESS =>
      "UPDATE_ROLLBACK_COMPLETE_CLEANUP_IN_PROGRESS"
  | .UPDATE_ROLLBACK_FAILED => "UPDATE_ROLLBACK_FAILED"
  | .UPDATE_ROLLBACK_IN_PROGRESS => "UPDATE_ROLLBACK_IN_PROGRESS"

/-- `IN_SCOPE_STACK_STATUSES` from `TechMaturityEntityProvider`: the fixed
allow-list of stack statuses that the provider considers (it excludes
`DELETE_COMPLETE`). -/
def IN_SCOPE_STACK_STATUSES : List StackStatus :=
  [.CREATE_COMPLETE, .CREATE_FAILED, .CREATE_IN_PROGRESS,
   .DELETE_FAILED, .DELETE_IN_PROGRESS,
   .IMPORT_COMPLETE, .IMPORT_IN_PROGRESS,
   .IMPORT_ROLLBACK_COMPLETE, .IMPORT_ROLLBACK_FAILED, .IMPORT_ROLLBACK_IN_PROGRESS,
   .REVIEW_IN_PROGRESS,
   .ROLLBACK_COMPLETE, .ROLLBACK_FAILED, .ROLLBACK_IN_PROGRESS,
   .UPDATE_COMPLETE, .UPDATE_COMPLETE_CLEANUP_IN_PROGRESS,
   .UPDATE_FAILED, .UPDATE_IN_PROGRESS,
   .UPDATE_ROLLBACK_COMPLETE, .UPDATE_ROLLBACK_COMPLETE_CLEANUP_IN_PROGRESS,
   .UPDATE_ROLLBACK_FAILED, .UPDATE_ROLLBACK_IN_PROGRESS]

/-! ## TechMaturityEntityProvider.refresh

The provider lists the organization's accounts, then (via `pMap` with
`concurrency: 3`) scans each account's configured regions for CloudFormation
stacks and pushes one location entity per in-scope stack into a shared
array, finally submitting the array as a `type: 'full'` mutation.

The embedding below is the deterministic sequential semantics of that code
(accounts in listing order); the `pMap` scheduling itself is modelled
separately as a step relation for the concurrency claim.  The environment —
what the AWS APIs return — is a `ProviderWorld`. -/

structure AwsAccount where
  Id : String
deriving DecidableEq

structure StackSummary where
  StackName : String
  StackStatus : StackStatus
deriving DecidableEq

/-- What `paginateDescribeStacks` yields for one account/region: the pages
fetched, and whether pagination (or client construction / credential
resolution) raised an error after those pages. -/
structure RegionScan where
  pages : List (List StackSummary)
  failed : Bool

/-- The external world one refresh cycle runs against. -/
structure ProviderWorld where
  /-- Result of paginating `listAccounts`; `error` models a listing failure
  (`DiscoveryError`): the exception escapes `refresh` before any mutation. -/
  listing : Except Unit (List AwsAccount)
  /-- Result of scanning one account id in one region. -/
  scan : String → String → RegionScan

/-- `getProviderName()`. -/
def providerName : String := "tech-maturity-provider"

/-- `TechMaturityEntityProvider.CloudFormationStackLocationType`. -/
def CloudFormationStackLocationType : String := "cloudformation-stack"

/-- The per-account role ARN the default client factory builds:
`arn:aws:iam::ACCOUNT:role/DESTINATION_ROLE_NAME`. -/
def destinationRoleArn (destinationRoleName accountId : String) : String :=
  "arn:aws:iam::" ++ accountId ++ ":role/" ++ destinationRoleName

/-- The location target the provider constructs for a discovered stack
(a URL query string; note there is no `region` parameter). -/
def mkTarget (accountId roleArn stackName : String) : String :=
  "https://shersoft.cloud?accountId=" ++ accountId ++
    "&roleArn=" ++ encodeURIComponent roleArn ++
    "&stackName=" ++ encodeURIComponent stackName

/-- The `DeferredEntity` pushed for one discovered stack (the location-entity
fields the rest of the pipeline consumes). -/
structure LocationEntity where
  locationKey : String
  locType : String
  target : String
deriving DecidableEq

/-- One `stacks.push(...)` payload. -/
def mkLocationEntity (accountId roleArn stackName : String) : LocationEntity :=
  { locationKey := providerName
    locType := CloudFormationStackLocationType
    target := mkTarget accountId roleArn stackName }

/-- The inner `for (const stack of result.Stacks || [])` loop.  Returns the
entities pushed and whether the loop ran to completion: an out-of-scope
stack executes `return;`, which exits the whole account callback (second
component `false`), pushing nothing for that stack or anything after it. -/
def scanStacks (accountId roleArn : String) :
    List StackSummary → List LocationEntity × Bool
  | [] => ([], true)
  | s :: rest =>
    if IN_SCOPE_STACK_STATUSES.contains s.StackStatus then
      let r := scanStacks accountId roleArn rest
      (mkLocationEntity accountId roleArn s.StackName :: r.1, r.2)
    else ([], false)

/-- The `for await (const result of describeStacks)` page loop. -/
def scanStackPages (accountId roleArn : String) :
    List (List StackSummary) → List LocationEntity × Bool
  | [] => ([], true)
  | p :: ps =>
    let r := scanStacks accountId roleArn p
    if r.2 then
      let r2 := scanStackPages accountId roleArn ps
      (r.1 ++ r2.1, r2.2)
    else (r.1, false)

/-- The `for (const region of this.regions)` loop of one account's callback.
Entities pushed before an abort remain (they went into the shared array);
an out-of-scope `return;` or a thrown error (caught by the account-level
`try`/`catch`) drops the remaining regions. -/
def scanAccountRegions (destinationRoleName accountId : String)
    (view : String → RegionScan) : List String → List LocationEntity
  | [] => []
  | region :: rest =>
    let rs := view region
    let roleArn := destinationRoleArn destinationRoleName accountId
    let r := scanStackPages accountId roleArn rs.pages
    if r.2 then
      if rs.failed then r.1
      else r.1 ++ scanAccountRegions destinationRoleName accountId view rest
    else r.1

/-- Everything one account contributes to the shared `stacks` array. -/
def scanAccount (regions : List String) (destinationRoleName : String)
    (w : ProviderWorld) (a : AwsAccount) : List LocationEntity :=
  scanAccountRegions destinationRoleName a.Id (w.scan a.Id) regions

/-- The mutation handed to `connection.applyMutation`. -/
structure Mutation where
  mtype : String
  entities : List LocationEntity
deriving DecidableEq

/-- `TechMaturityEntityProvider.refresh`: list accounts (a listing failure
escapes as `error`, reaching no mutation), scan every account, submit the
aggregate as a full mutation. -/
def refresh (regions : List String) (destinationRoleName : String)
    (w : ProviderWorld) : Except Unit Mutation :=
  match w.listing with
  | .error e => .error e
  | .ok accounts =>
      .ok { mtype := "full"
            entities := (accounts.map (scanAccount regions destinationRoleName w)).flatten }

/-- One scheduled cycle as the catalog sink observes it: on success the sink's
entity set for this provider is fully replaced; when `refresh` throws, the
scheduler wrapper logs the error and `applyMutation` is never called, so the
sink keeps its previous set. -/
def runCycle (regions : List String) (destinationRoleName : String)
    (w : ProviderWorld) (prev : List LocationEntity) : List LocationEntity :=
  match refresh regions destinationRoleName w with
  | .error _ => prev
  | .ok m => m.entities

/-! ## JSON.parse model

`TechMaturityCatalogProcessor.readLocation` starts with
`JSON.parse(location.target)` outside its `try`/`catch`.  `JSON.parse` is a
language built-in; it is modelled here as an executable recursive-descent
parser of the JSON grammar (objects, arrays, strings with escapes, the three
literals, and number lexemes).  Fuel makes the recursion structural; the
fuel supplied by `jsonParse` is generous for the inputs considered. -/

inductive Json where
  | jnull
  | jbool (b : Bool)
  | jnum (lexeme : String)
  | jstr (s : String)
  | jarr (elems : List Json)
  | jobj (fields : List (String × Json))

/-- The double-quote character. -/
def quoteChar : Char := Char.ofNat 34

/-- The backslash character. -/
def backslashChar : Char := Char.ofNat 92

/-- The opening-brace character. -/
def lbraceChar : Char := Char.ofNat 123

/-- The closing-brace character. -/
def rbraceChar : Char := Char.ofNat 125

/-- Skip JSON whitespace (space, tab, newline, carriage return). -/
def skipWs : List Char → List Char
  | [] => []
  | c :: cs =>
    if c = ' ' || c = Char.ofNat 9 || c = Char.ofNat 10 || c = Char.ofNat 13 then
      skipWs cs
    else c :: cs

/-- Single-character JSON string escapes. -/
def escapeChar (c : Char) : Option Char :=
  if c = quoteChar then some quoteChar
  else if c = backslashChar then some backslashChar
  else if c = '/' then some '/'
  else if c = 'b' then some (Char.ofNat 8)
  else if c = 'f' then some (Char.ofNat 12)
  else if c = 'n' then some (Char.ofNat 10)
  else if c = 'r' then some (Char.ofNat 13)
  else if c = 't' then some (Char.ofNat 9)
  else none

/-- Hex digit value, if any. -/
def hexVal (c : Char) : Option Nat :=
  if 48 ≤ c.toNat && c.toNat ≤ 57 then some (c.toNat - 48)
  else if 97 ≤ c.toNat && c.toNat ≤ 102 then some (c.toNat - 87)
  else if 65 ≤ c.toNat && c.toNat ≤ 70 then some (c.toNat - 55)
  else none

/-- Characters a number lexeme may contain. -/
def numChar (c : Char) : Bool :=
  c.isDigit || c = '-' || c = '+' || c = '.' || c = 'e' || c = 'E'

mutual

/-- Parse one JSON value from the input (after skipping whitespace). -/
def parseVal : Nat → List Char → Option (Json × List Char)
  | 0, _ => none
  | fuel + 1, input =>
    match skipWs input with
    | [] => none
    | c :: rest =>
      if c = lbraceChar then
        match parseObjFields fuel rest with
        | some (fs, r) => some (.jobj fs, r)
        | none => none
      else if c = '[' then
        match parseArrElems fuel rest with
        | some (es, r) => some (.jarr es, r)
        | none => none
      else if c = quoteChar then
        match parseStringBody fuel rest with
        | some (chars, r) => some (.jstr (String.mk chars), r)
        | none => none
      else if c = 't' then
        match rest with
        | 'r' :: 'u' :: 'e' :: r => some (.jbool true, r)
        | _ => none
      else if c = 'f' then
        match rest with
        | 'a' :: 'l' :: 's' :: 'e' :: r => some (.jbool false, r)
        | _ => none
      else if c = 'n' then
        match rest with
        | 'u' :: 'l' :: 'l' :: r => some (.jnull, r)
        | _ => none
      else if c.isDigit || c = '-' then
        some (.jnum (String.mk ((c :: rest).takeWhile numChar)),
          (c :: rest).dropWhile numChar)
      else none

/-- Parse the remainder of a JSON string literal (after the opening quote). -/
def parseStringBody : Nat → List Char → Option (List Char × List Char)
  | 0, _ => none
  | fuel + 1, input =>
    match input with
    | [] => none
    | c :: cs =>
      if c = quoteChar then some ([], cs)
      else if c = backslashChar then
        match cs with
        | 'u' :: a :: b :: c3 :: d :: cs3 =>
          match hexVal a, hexVal b, hexVal c3, hexVal d with
          | some ha, some hb, some hc, some hd =>
            match parseStringBody fuel cs3 with
            | some (acc, rest) =>
                some (Char.ofNat (((ha * 16 + hb) * 16 + hc) * 16 + hd) :: acc, rest)
            | none => none
          | _, _, _, _ => none
        | e :: cs2 =>
          match escapeChar e with
          | some ch =>
            match parseStringBody fuel cs2 with
            | some (acc, rest) => some (ch :: acc, rest)
            | none => none
          | none => none
        | [] => none
      else
        match parseStringBody fuel cs with
        | some (acc, rest) => some (c :: acc, rest)
        | none => none

/-- Parse array elements right after `[` (handles the empty array). -/
def parseArrElems : Nat → List Char → Option (List Json × List Char)
  | 0, _ => none
  | fuel + 1, input =>
    match skipWs input with
    | ']' :: r => some ([], r)
    | t =>
      match parseVal fuel t with
      | some (v, r1) =>
        match parseArrMore fuel r1 with
        | some (vs, r2) => some (v :: vs, r2)
        | none => none
      | none => none

/-- Parse `, value` continuations of an array, or its closing bracket. -/
def parseArrMore : Nat → List Char → Option (List Json × List Char)
  | 0, _ => none
  | fuel + 1, input =>
    match skipWs input with
    | ']' :: r => some ([], r)
    | ',' :: r =>
      match parseVal fuel r with
      | some (v, r1) =>
        match parseArrMore fuel r1 with
        | some (vs, r2) => some (v :: vs, r2)
        | none => none
      | none => none
    | _ => none

/-- Parse object fields right after the opening brace (handles the empty
object). -/
def parseObjFields : Nat → List Char → Option (List (String × Json) × List Char)
  | 0, _ => none
  | fuel + 1, input =>
    match skipWs input with
    | [] => none
    | c :: r =>
      if c = rbraceChar then some ([], r)
      else if c = quoteChar then
        match parseStringBody fuel r with
        | some (kcs, r1) =>
          match skipWs r1 with
          | ':' :: r2 =>
            match parseVal fuel r2 with
            | some (v, r3) =>
              match parseObjMore fuel r3 with
              | some (fs, r4) => some ((String.mk kcs, v) :: fs, r4)
              | none => none
            | none => none
          | _ => none
        | none => none
      else none

/-- Parse `, "key": value` continuations of an object, or its closing
brace. -/
def parseObjMore : Nat → List Char → Option (List (String × Json) × List Char)
  | 0, _ => none
  | fuel + 1, input =>
    match skipWs input with
    | [] => none
    | c :: r =>
      if c = rbraceChar then some ([], r)
      else if c = ',' then
        match skipWs r with
        | k :: r1 =>
          if k = quoteChar then
            match parseStringBody fuel r1 with
            | some (kcs, r2) =>
              match skipWs r2 with
              | ':' :: r3 =>
                match parseVal fuel r3 with
                | some (v, r4) =>
                  match parseObjMore fuel r4 with
                  | some (fs, r5) => some ((String.mk kcs, v) :: fs, r5)
                  | none => none
                | none => none
              | _ => none
            | none => none
          else none
        | [] => none
      else none

end

/-- Model of `JSON.parse`: parse one value and require only whitespace to
remain; anything else is a `SyntaxError`, modelled as `none`. -/
def jsonParse (s : String) : Option Json :=
  match parseVal (2 * s.data.length + 4) s.data with
  | some (v, rest) => if skipWs rest = [] then some v else none
  | none => none

/-- Field access `obj.k` on a parsed JSON value, as the destructuring
`const { k } = JSON.parse(...)` sees it: a string field's value, `none`
(JavaScript `undefined`) when the field is absent or not a string. -/
def jsonStringField (j : Json) (k : String) : Option String :=
  match j with
  | .jobj fields =>
    match tagLookup (fields.filterMap (fun f =>
        match f.2 with | .jstr v => some (f.1, v) | _ => none)) k with
    | some v => some v
    | none => none
  | _ => none

/-! ## Catalog entities

The entities both processors emit, with the logical fields the sources
populate.  Optional-valued fields model JavaScript `undefined`: an absent
`spec.dependsOn`/`spec.dependencyOf` block is `none`, and an annotation whose
value was an undefined variable carries `none`. -/

/-- A `spec.dependencyOf` value as the code actually produces it: either a
bare string (the raw project tag) or an array of entity references. -/
inductive DepOf where
  | str (s : String)
  | arr (refs : List String)
deriving DecidableEq

structure Entity where
  apiVersion : String
  kind : String
  name : String
  description : String
  annotations : List (String × Option String)
  links : List (String × String)
  specType : String
  lifecycle : String
  owner : String
  dependencyOf : Option DepOf
  dependsOn : Option (List String)
deriving DecidableEq

/-- The `LocationSpec` argument of `readLocation`. -/
structure LocationSpec where
  locType : String
  target : String
deriving DecidableEq

/-- String interpolation of a possibly-undefined value: JavaScript template
literals render `undefined` as the text `undefined`. -/
def jsInterp : Option String → String
  | none => "undefined"
  | some s => s

/-- Array-spread of `cond ? tagValue : []`: spreading a string spreads its
characters as one-character strings, spreading `[]` contributes nothing. -/
def jsSpreadStringly (o : Option String) : List String :=
  if jsTruthy o then (o.getD "").data.map (fun c => c.toString) else []

/-- The `shersoft.cloud/` annotation namespace shared by both processors. -/
def AnnotationPrefix : String := "shersoft.cloud/"

/-- The AWS-console deep link both processors attach. -/
def consoleLink (region : Option String) (stackId : String) : String :=
  "https://" ++ jsInterp region ++
    ".console.aws.amazon.com/cloudformation/home?region=" ++ jsInterp region ++
    "#/stacks/stackinfo?filteringText=&filteringStatus=active&viewNested=true&stackId=" ++
    encodeURIComponent stackId

/-- What the CloudFormation APIs return for one described stack. -/
structure StackDetail where
  StackId : String
  StackStatus : StackStatus
  Tags : List (String × String)
deriving DecidableEq

/-- One parsed template resource (the property the code reads). -/
structure TemplateResource where
  Runtime : String
deriving DecidableEq

/-- One `StackResourceSummary`. -/
structure ResourceSummary where
  LogicalResourceId : String
  PhysicalResourceId : String
  ResourceType : String
deriving DecidableEq

/-- The per-location world a `readLocation` call runs against:
`DescribeStacks` → `Stacks?.[0]`, `GetTemplate` → `TemplateBody`, the parsed
template's `Resources` mapping, and the paginated resource listing. -/
structure CfnWorld where
  describeStack : Option StackDetail
  templateBody : Option String
  parsedResources : List (String × TemplateResource)
  resourcePages : List (List ResourceSummary)

/-! ## TechMaturityCatalogProcessor (`src/packages/backend/src/TechMaturityCatalogProcessor.ts`) -/

namespace TMCP

/-- `stackResourceName`: `'aws-cfn-' + shake256-27-hex(StackId)`. -/
def stackResourceName (stackId : String) : String :=
  "aws-cfn-" ++ digest27Hex stackId

/-- `lambdaResourceName`: `'aws-lmb-' + shake256-27-hex(StackId + LogicalResourceId)`. -/
def lambdaResourceName (stackId logicalId : String) : String :=
  "aws-lmb-" ++ digest27Hex (stackId ++ logicalId)

/-- The stack entity emitted at the first `emit(...)` call. -/
def mkStackEntity (region roleArn accountId stackName : Option String)
    (sd : StackDetail) : Entity :=
  { apiVersion := "backstage.io/v1alpha1"
    kind := "Resource"
    name := stackResourceName sd.StackId
    description := "Auto-detected AWS CloudFormation Stack: " ++ jsInterp stackName
    annotations :=
      [(AnnotationPrefix ++ "region", region),
       (AnnotationPrefix ++ "lookedUpWith", roleArn),
       (AnnotationPrefix ++ "accountId", accountId),
       (AnnotationPrefix ++ "cloudFormationStackName", stackName)]
    links := [(consoleLink region sd.StackId, "CloudFormation stack in the AWS console")]
    specType := "aws-cloudformation-stack"
    lifecycle := jsOrElse (tagLookup sd.Tags "shersoft-ltd:backstage:lifecycle") "production"
    owner := jsOrElse (tagLookup sd.Tags "shersoft-ltd:backstage:owner") "platform"
    dependencyOf :=
      some (match tagLookup sd.Tags "shersoft-ltd:backstage:project" with
        | some v => if v == "" then .arr [] else .str v
        | none => .arr [])
    dependsOn := none }

/-- The function entity emitted for one `AWS::Lambda::Function` resource. -/
def mkFunctionEntity (region roleArn accountId stackName : Option String)
    (sd : StackDetail) (res : ResourceSummary) (detail : TemplateResource) : Entity :=
  { apiVersion := "backstage.io/v1alpha1"
    kind := "Resource"
    name := lambdaResourceName sd.StackId res.LogicalResourceId
    description := "Auto-detected AWS Lambda function: " ++ res.PhysicalResourceId
    annotations :=
      [(AnnotationPrefix ++ "region", region),
       (AnnotationPrefix ++ "lookedUpWith", roleArn),
       (AnnotationPrefix ++ "accountId", accountId),
       (AnnotationPrefix ++ "functionName", some res.PhysicalResourceId),
       (AnnotationPrefix ++ "cloudFormationStackName", stackName),
       (AnnotationPrefix ++ "cloudFormationLogicalId", some res.LogicalResourceId)]
    links := [(consoleLink region sd.StackId, "CloudFormation stack in the AWS console")]
    specType := "aws-lambda-function"
    lifecycle := jsOrElse (tagLookup sd.Tags "shersoft-ltd:backstage:lifecycle") "production"
    owner := jsOrElse (tagLookup sd.Tags "shersoft-ltd:backstage:owner") "platform"
    dependencyOf :=
      some (.arr (jsSpreadStringly (tagLookup sd.Tags "shersoft-ltd:backstage:project") ++
        ["resource:" ++ stackResourceName sd.StackId]))
    dependsOn := some ["resource:aws-lambda-runtime-" ++ detail.Runtime] }

/-- The `resources.StackResourceSummaries?.forEach(...)` body over one page.
Second component: `false` when the template lookup produced `undefined` and
`resourceDetail.Properties` threw (before any emit for that resource),
aborting the remaining resources. -/
def emitFnResources (region roleArn accountId stackName : Option String)
    (sd : StackDetail) (tpl : List (String × TemplateResource)) :
    List ResourceSummary → List Entity × Bool
  | [] => ([], true)
  | res :: rest =>
    if res.ResourceType == "AWS::Lambda::Function" then
      match jsObjLookup tpl res.LogicalResourceId with
      | none => ([], false)
      | some detail =>
        let r := emitFnResources region roleArn accountId stackName sd tpl rest
        (mkFunctionEntity region roleArn accountId stackName sd res detail :: r.1, r.2)
    else emitFnResources region roleArn accountId stackName sd tpl rest

/-- The `for await (... of paginateListStackResources ...)` loop. -/
def emitFnPages (region roleArn accountId stackName : Option String)
    (sd : StackDetail) (tpl : List (String × TemplateResource)) :
    List (List ResourceSummary) → List Entity × Bool
  | [] => ([], true)
  | p :: ps =>
    let r := emitFnResources region roleArn accountId stackName sd tpl p
    if r.2 then
      let r2 := emitFnPages region roleArn accountId stackName sd tpl ps
      (r.1 ++ r2.1, r2.2)
    else (r.1, false)

/-- The body of `readLocation`'s `try` block: what gets emitted, and whether
it ran to completion (`false` = an exception was raised and caught; entities
emitted before it remain emitted). -/
def readLocationCore (region roleArn accountId stackName : Option String)
    (w : CfnWorld) : List Entity × Bool :=
  match w.describeStack with
  | none => ([], true)
  | some sd =>
    if !(jsIncludes sd.StackStatus.statusText "COMPLETE") then ([], true)
    else
      match w.templateBody with
      | none => ([], false)
      | some body =>
        if body == "" then ([], false)
        else
          let r := emitFnPages region roleArn accountId stackName sd
            w.parsedResources w.resourcePages
          (mkStackEntity region roleArn accountId stackName sd :: r.1, r.2)

/-- Errors that escape `readLocation` (they occur before the `try`). -/
inductive RLErr where
  | jsonParse
  | destructure
deriving DecidableEq

/-- `TechMaturityCatalogProcessor.readLocation`: type guard, `JSON.parse` of
the target (outside the `try` — a parse failure escapes as an error and
nothing is emitted), field destructuring, then the guarded pipeline whose
exceptions the `catch` swallows.  Result: processed flag plus emitted
entities. -/
def readLocation (loc : LocationSpec) (w : CfnWorld) :
    Except RLErr (Bool × List Entity) :=
  if loc.locType != CloudFormationStackLocationType then .ok (false, [])
  else
    match jsonParse loc.target with
    | none => .error .jsonParse
    | some .jnull => .error .destructure
    | some j =>
      let r := readLocationCore (jsonStringField j "region")
        (jsonStringField j "roleArn") (jsonStringField j "accountId")
        (jsonStringField j "stackName") w
      .ok (true, r.1)

end TMCP

/-! ## TechMaturityCatalogProcessor2 (`src/packages/backend/src/TechMaturityCatalogProcessor2.ts`) -/

namespace TMCP2

/-- `TechMaturityCatalogProcessor2.ResourceType`, the location type this
processor handles. -/
def ResourceType : String := "cdk-cloudformation-stack"

/-- `lambdaResourceName` as written (again) in `TechMaturityCatalogProcessor2.ts`:
`'aws-lmb-' + shake256-27-hex(StackId + LogicalResourceId)`. -/
def lambdaResourceName (stackId logicalId : String) : String :=
  "aws-lmb-" ++ digest27Hex (stackId ++ logicalId)

/-- The runtime entity emitted (once per function resource) at the first
`emit(...)` call: identity is the plain, non-hashed
`aws-lambda-runtime-` + runtime string; no annotations, links, or edges. -/
def mkRuntimeEntity (runtime : String) : Entity :=
  { apiVersion := "backstage.io/v1alpha1"
    kind := "Resource"
    name := "aws-lambda-runtime-" ++ runtime
    description := "Auto-detected AWS Lambda runtime: " ++ runtime
    annotations := []
    links := []
    specType := "aws-lambda-runtime"
    lifecycle := "production"
    owner := "aws"
    dependencyOf := none
    dependsOn := none }

/-- The function entity this processor emits per `AWS::Lambda::Function`. -/
def mkFunctionEntity (region : Option String) (roleArn : String)
    (accountId stackName : Option String) (sd : StackDetail)
    (res : ResourceSummary) (detail : TemplateResource) : Entity :=
  { apiVersion := "backstage.io/v1alpha1"
    kind := "Resource"
    name := lambdaResourceName sd.StackId res.LogicalResourceId
    description := "Auto-detected AWS Lambda function: " ++ res.PhysicalResourceId
    annotations :=
      [(AnnotationPrefix ++ "region", region),
       (AnnotationPrefix ++ "lookedUpWith", some roleArn),
       (AnnotationPrefix ++ "accountId", accountId),
       (AnnotationPrefix ++ "functionName", some res.PhysicalResourceId),
       (AnnotationPrefix ++ "cloudFormationStackName", stackName),
       (AnnotationPrefix ++ "cloudFormationLogicalId", some res.LogicalResourceId)]
    links := [(consoleLink region sd.StackId, "CloudFormation stack in the AWS console")]
    specType := "aws-lambda-function"
    lifecycle := "unknown"
    owner := "aws"
    dependencyOf := none
    dependsOn := some ["resource:aws-lambda-runtime-" ++ detail.Runtime] }

/-- The `forEach` body over one resource page: for each function resource it
emits the runtime entity and then the function entity, with no
deduplication of runtime identities.  Second component `false` models the
`TypeError` thrown when the template lookup is `undefined` (thrown while
building the first emit's name, so nothing is emitted for that resource and
the remaining resources are skipped). -/
def emitResources (region : Option String) (roleArn : String)
    (accountId stackName : Option String) (sd : StackDetail)
    (tpl : List (String × TemplateResource)) :
    List ResourceSummary → List Entity × Bool
  | [] => ([], true)
  | res :: rest =>
    if res.ResourceType == "AWS::Lambda::Function" then
      match jsObjLookup tpl res.LogicalResourceId with
      | none => ([], false)
      | some detail =>
        let r := emitResources region roleArn accountId stackName sd tpl rest
        (mkRuntimeEntity detail.Runtime ::
          mkFunctionEntity region roleArn accountId stackName sd res detail :: r.1,
          r.2)
    else emitResources region roleArn accountId stackName sd tpl rest

/-- The resource-page loop. -/
def emitPages (region : Option String) (roleArn : String)
    (accountId stackName : Option String) (sd : StackDetail)
    (tpl : List (String × TemplateResource)) :
    List (List ResourceSummary) → List Entity × Bool
  | [] => ([], true)
  | p :: ps =>
    let r := emitResources region roleArn accountId stackName sd tpl p
    if r.2 then
      let r2 := emitPages region roleArn accountId stackName sd tpl ps
      (r.1 ++ r2.1, r2.2)
    else (r.1, false)

/-- The pipeline after the location target is split.  This processor has no
`try`/`catch`: `error` means an exception escaped `readLocation` (after the
listed entities were already emitted). -/
def run (region : Option String) (roleArn : String)
    (accountId stackName : Option String) (w : CfnWorld) :
    List Entity × Except Unit Bool :=
  match w.describeStack with
  | none => ([], .ok true)
  | some sd =>
    if !(jsIncludes sd.StackStatus.statusText "COMPLETE") then ([], .ok true)
    else
      match w.templateBody with
      | none => ([], .error ())
      | some body =>
        if body == "" then ([], .error ())
        else
          let r := emitPages region roleArn accountId stackName sd
            w.parsedResources w.resourcePages
          (r.1, if r.2 then .ok true else .error ())

/-- `TechMaturityCatalogProcessor2.readLocation`: type guard, then
`target.split('@')` into role ARN / stack name / region and
`roleArn.split(':')[4]` as account id, then the pipeline. -/
def readLocation (loc : LocationSpec) (w : CfnWorld) :
    List Entity × Except Unit Bool :=
  if loc.locType != ResourceType then ([], .ok false)
  else
    let parts := loc.target.splitOn "@"
    let roleArn := parts.headD ""
    run parts[2]? roleArn (roleArn.splitOn ":")[4]? parts[1]? w

end TMCP2

/-! ## Bounded-concurrency model of the account fan-out

`refresh` drives the account scans through `pMap(accounts, fn,
{ concurrency: 3 })` and awaits it before `applyMutation`.  Modelled from the
spec: the `p-map` scheduler itself is an external dependency (not part of
this repository); the spec describes it as a bounded worker pool — at most
the configured number of account tasks run at once, and the pool resolves
only after every task settles.  The transition system below captures exactly
that contract; the limit `3` is the source's `concurrency` option. -/

/-- The `concurrency` option passed to `pMap` in `refresh`. -/
def pMapConcurrency : Nat := 3

/-- Scheduler state: account tasks not yet started, currently executing, and
settled, plus whether the mutation has been submitted. -/
structure PoolState where
  pending : List Nat
  running : List Nat
  done : List Nat
  submitted : Bool
deriving DecidableEq

/-- The state before any account task has started. -/
def initPool (accounts : List Nat) : PoolState :=
  { pending := accounts, running := [], done := [], submitted := false }

/-- One scheduler transition: start the next pending task while fewer than
`pMapConcurrency` run, settle a running task, or — only once every task has
settled — submit the cycle's mutation. -/
inductive PoolStep : PoolState → PoolState → Prop where
  | start (a : Nat) (pending running done : List Nat) :
      running.length < pMapConcurrency →
      PoolStep { pending := a :: pending, running := running, done := done, submitted := false }
        { pending := pending, running := a :: running, done := done, submitted := false }
  | finish (a : Nat) (pending running done : List Nat) :
      a ∈ running →
      PoolStep { pending := pending, running := running, done := done, submitted := false }
        { pending := pending, running := running.erase a, done := a :: done, submitted := false }
  | submit (done : List Nat) :
      PoolStep { pending := [], running := [], done := done, submitted := false }
        { pending := [], running := [], done := done, submitted := true }

/-- Reachability of a scheduler state from an initial state. -/
inductive PoolReach (init : PoolState) : PoolState → Prop where
  | refl : PoolReach init init
  | tail {s t : PoolState} : PoolReach init s → PoolStep s t → PoolReach init t

/-! ## Helper lemmas -/

theorem length_hexCharsOfBytes (bs : List Nat) :
    (hexCharsOfBytes bs).length = 2 * bs.length := by
  induction bs with
  | nil => rfl
  | cons b bs ih => simp [hexCharsOfBytes, ih]; omega

theorem length_digest27 (input : List Nat) : (digest27 input).length = 27 := by
  simp [digest27]

theorem length_digest27Hex (s : String) : (digest27Hex s).length = 54 := by
  simp [digest27Hex, String.length, length_hexCharsOfBytes, length_digest27]

theorem string_append_cancel_left {a b c : String} (h : a ++ b = a ++ c) : b = c := by
  have hd := congrArg String.data h
  simp only [String.data_append] at hd
  exact String.ext (List.append_cancel_left hd)

theorem parseVal_h_none (fuel : Nat) (cs : List Char) :
    parseVal fuel ('h' :: cs) = none := by
  cases fuel with
  | zero => rfl
  | succ n => rfl

theorem jsonParse_none_of_data_h (s : String) (l : List Char)
    (hl : s.data = 'h' :: l) : jsonParse s = none := by
  simp [jsonParse, hl, parseVal_h_none]

theorem mkTarget_data_h (accountId roleArn stackName : String) :
    ∃ l, (mkTarget accountId roleArn stackName).data = 'h' :: l := by
  refine ⟨"ttps://shersoft.cloud?accountId=".data ++
    (accountId ++ ("&roleArn=" ++ (encodeURIComponent roleArn ++
      ("&stackName=" ++ encodeURIComponent stackName)))).data, ?_⟩
  simp [mkTarget, String.data_append, List.append_assoc]

/-! ## Claim C1 -/

/-- A world with one account and one region whose single stack page holds an
out-of-scope stack followed by an in-scope one. -/
def c1World : ProviderWorld :=
  { listing := .ok [{ Id := "111111111111" }]
    scan := fun accountId region =>
      if accountId == "111111111111" && region == "eu-west-1" then
        { pages := [[{ StackName := "deleted-stack", StackStatus := .DELETE_COMPLETE },
                     { StackName := "order-service", StackStatus := .UPDATE_COMPLETE }]]
          failed := false }
      else { pages := [], failed := false } }

/-- Claim C1 (refuted; evaluation of the code at the failing input): with one
account whose page lists an out-of-scope stack first and an in-scope
`UPDATE_COMPLETE` stack second, the cycle's mutation is empty — the `return;`
taken for the out-of-scope stack abandons the whole account, so the in-scope
stack is never scanned, contrary to the claim that only the out-of-scope
stack is dropped. -/
theorem c1_out_of_scope_return_aborts_account :
    refresh ["eu-west-1"] "CatalogRole" c1World =
      .ok { mtype := "full", entities := [] } ∧
    IN_SCOPE_STACK_STATUSES.contains StackStatus.UPDATE_COMPLETE = true :=
  ⟨rfl, by decide⟩

/-! ## Claim C2 -/

/-- A provider world whose only stack has status `DELETE_COMPLETE`. -/
def c2ProviderWorld : ProviderWorld :=
  { listing := .ok [{ Id := "111111111111" }]
    scan := fun _ _ =>
      { pages := [[{ StackName := "order-service", StackStatus := .DELETE_COMPLETE }]]
        failed := false } }

/-- A syntactically valid JSON location target naming the stack (what the
claim assumes the processor receives). -/
def c2Target : String :=
  String.mk [lbraceChar] ++
    "\"accountId\":\"111111111111\",\"roleArn\":\"arn:aws:iam::111111111111:role/CatalogRole\",\"stackName\":\"order-service\",\"region\":\"eu-west-1\"" ++
    String.mk [rbraceChar]

/-- A processor world for that stack: status `DELETE_COMPLETE`, a template
with one lambda function. -/
def c2World : CfnWorld :=
  { describeStack := some
      { StackId := "arn:aws:cloudformation:eu-west-1:111111111111:stack/order-service/1234"
        StackStatus := .DELETE_COMPLETE
        Tags := [] }
    templateBody := some "Resources: present"
    parsedResources := [("ProcessOrderFn", { Runtime := "nodejs18.x" })]
    resourcePages := [[{ LogicalResourceId := "ProcessOrderFn"
                         PhysicalResourceId := "order-service-ProcessOrderFn-1A2B"
                         ResourceType := "AWS::Lambda::Function" }]] }

set_option maxRecDepth 4000 in
/-- Claim C2 (refuted in its processor half; evaluation at the failing
input): the provider indeed pushes nothing for a `DELETE_COMPLETE` stack
(first conjunct), but `readLocation`'s status filter is a substring check
`StackStatus.includes('COMPLETE')`, which `DELETE_COMPLETE` passes — so the
processor emits a stack entity and a function entity for the deleted stack,
contrary to the claim that neither pipeline stage emits anything for it. -/
theorem c2_delete_complete_processor_emits :
    refresh ["eu-west-1"] "CatalogRole" c2ProviderWorld =
      .ok { mtype := "full", entities := [] } ∧
    (TMCP.readLocation { locType := CloudFormationStackLocationType, target := c2Target }
        c2World).map (fun p => (p.1, p.2.map Entity.specType)) =
      .ok (true, ["aws-cloudformation-stack", "aws-lambda-function"]) :=
  ⟨rfl, rfl⟩

/-! ## Claim C8 -/

/-- A stack carrying the project tag. -/
def c8StackTagged : StackDetail :=
  { StackId := "arn:aws:cloudformation:eu-west-1:111111111111:stack/shop-api/5678"
    StackStatus := .UPDATE_COMPLETE
    Tags := [("shersoft-ltd:backstage:project", "shop")] }

/-- The same stack without the project tag. -/
def c8StackUntagged : StackDetail :=
  { StackId := "arn:aws:cloudformation:eu-west-1:111111111111:stack/shop-api/5678"
    StackStatus := .UPDATE_COMPLETE
    Tags := [] }

/-- Claim C8 (refuted in its tagged half; evaluation at the failing input):
for a stack with project tag value `shop` the emitted StackEntity's
`spec.dependencyOf` is the bare string `shop` — the code passes the tag value
unwrapped — which is not the singleton list `[shop]` the claim states; for a
stack without the tag it is the empty list, as claimed. -/
theorem c8_project_tag_emits_bare_string :
    (TMCP.mkStackEntity (some "eu-west-1")
        (some "arn:aws:iam::111111111111:role/CatalogRole")
        (some "111111111111") (some "shop-api") c8StackTagged).dependencyOf =
      some (.str "shop") ∧
    DepOf.str "shop" ≠ DepOf.arr ["shop"] ∧
    (TMCP.mkStackEntity (some "eu-west-1")
        (some "arn:aws:iam::111111111111:role/CatalogRole")
        (some "111111111111") (some "shop-api") c8StackUntagged).dependencyOf =
      some (.arr []) :=
  ⟨rfl, by decide, rfl⟩

/-! ## Claim C4 -/

/-- Claim C4, counterexample: the hashed lambda identity digests the plain
concatenation `StackId + LogicalResourceId`, so the two distinct pairs
`("ab", "c")` and `("a", "bc")` digest the same string `"abc"` and collide. -/
theorem c4_distinct_pairs_collide :
    TMCP.lambdaResourceName "ab" "c" = TMCP.lambdaResourceName "a" "bc" ∧
    (("ab", "c") : String × String) ≠ ("a", "bc") :=
  ⟨rfl, by decide⟩

/-- Claim C4 as amended: hashed identities have constant length 62 with the
fixed prefixes `aws-cfn-` / `aws-lmb-` followed by a 54-character digest,
and the lambda identity depends only on the concatenation of stack id and
logical id — so equal concatenations (even from distinct pairs) yield equal
identities, and distinctness of identities cannot be guaranteed for all
distinct pairs. -/
theorem c4_fixed_length_identities :
    (∀ s : String, (TMCP.stackResourceName s).length = 62 ∧
      ∃ r, TMCP.stackResourceName s = "aws-cfn-" ++ r ∧ r.length = 54) ∧
    (∀ s l : String, (TMCP.lambdaResourceName s l).length = 62 ∧
      ∃ r, TMCP.lambdaResourceName s l = "aws-lmb-" ++ r ∧ r.length = 54) ∧
    (∀ s₁ l₁ s₂ l₂ : String, s₁ ++ l₁ = s₂ ++ l₂ →
      TMCP.lambdaResourceName s₁ l₁ = TMCP.lambdaResourceName s₂ l₂) := by
  refine ⟨fun s => ⟨?_, digest27Hex s, rfl, length_digest27Hex s⟩,
    fun s l => ⟨?_, digest27Hex (s ++ l), rfl, length_digest27Hex (s ++ l)⟩,
    fun s₁ l₁ s₂ l₂ h => ?_⟩
  · rw [TMCP.stackResourceName, String.length_append, length_digest27Hex]; rfl
  · rw [TMCP.lambdaResourceName, String.length_append, length_digest27Hex]; rfl
  · simp [TMCP.lambdaResourceName, h]

/-- Witness for `c4_fixed_length_identities` at a concrete input. -/
theorem c4_fixed_length_identities_witness :
    ("ab" : String) ++ "c" = "a" ++ "bc" ∧
    TMCP.lambdaResourceName "ab" "c" = TMCP.lambdaResourceName "a" "bc" :=
  ⟨rfl, c4_fixed_length_identities.2.2 "ab" "c" "a" "bc" rfl⟩

/-! ## Claim C5 -/

/-- Claim C5: identity computation is deterministic and depends on no input
besides the stack id and logical id.  In this embedding both processors'
identity computations are pure functions of exactly those arguments, and the
two independently-embedded copies of `lambdaResourceName` (one per source
file — two different call sites/processes) agree on every input. -/
theorem c5_identity_deterministic :
    ∀ stackId logicalId : String,
      TMCP.lambdaResourceName stackId logicalId =
        TMCP2.lambdaResourceName stackId logicalId ∧
      TMCP.stackResourceName stackId = "aws-cfn-" ++ digest27Hex stackId :=
  fun _ _ => ⟨rfl, rfl⟩

/-! ## Claim C7 -/

/-- Claim C7: when the organization account listing fails, the exception
escapes `refresh` before the mutation is built, `applyMutation` is never
reached, and the sink's previously held entity set is left unchanged. -/
theorem c7_listing_failure_no_mutation :
    ∀ (regions : List String) (destinationRoleName : String) (w : ProviderWorld)
      (prev : List LocationEntity),
      w.listing = .error () →
      refresh regions destinationRoleName w = .error () ∧
      runCycle regions destinationRoleName w prev = prev := by
  intro regions d w prev h
  constructor
  · simp [refresh, h]
  · simp [runCycle, refresh, h]

/-- A world whose account listing fails. -/
def c7World : ProviderWorld :=
  { listing := .error ()
    scan := fun _ _ => { pages := [], failed := false } }

/-- Witness for `c7_listing_failure_no_mutation` at a concrete world and a
concrete previously-held sink set. -/
theorem c7_listing_failure_no_mutation_witness :
    c7World.listing = .error () ∧
    (refresh ["eu-west-1"] "CatalogRole" c7World = .error () ∧
      runCycle ["eu-west-1"] "CatalogRole" c7World
        [mkLocationEntity "111111111111" "role" "order-service"] =
        [mkLocationEntity "111111111111" "role" "order-service"]) :=
  ⟨rfl, c7_listing_failure_no_mutation ["eu-west-1"] "CatalogRole" c7World
    [mkLocationEntity "111111111111" "role" "order-service"] rfl⟩

/-! ## Claim C10 -/

/-- Claim C10: for a location of the CloudFormation-stack type whose target
is not valid JSON, `readLocation` fails on `JSON.parse` before its
`try`/`catch`, emitting nothing and returning no result — and every target
the provider constructs (`https://shersoft.cloud?...`, a URL query string)
is such a non-JSON target. -/
theorem c10_provider_targets_fail_json_parse :
    (∀ (t : String) (w : CfnWorld), jsonParse t = none →
      TMCP.readLocation { locType := CloudFormationStackLocationType, target := t } w =
        .error .jsonParse) ∧
    (∀ accountId roleArn stackName : String,
      jsonParse (mkTarget accountId roleArn stackName) = none) := by
  constructor
  · intro t w h
    simp [TMCP.readLocation, h]
  · intro a r s
    obtain ⟨l, hl⟩ := mkTarget_data_h a r s
    exact jsonParse_none_of_data_h _ l hl

/-- An arbitrary processor world for the C10 witness. -/
def c10World : CfnWorld :=
  { describeStack := none, templateBody := none, parsedResources := [], resourcePages := [] }

/-- Witness for `c10_provider_targets_fail_json_parse` at a concrete
provider-constructed target. -/
theorem c10_provider_targets_fail_json_parse_witness :
    jsonParse (mkTarget "111111111111"
      "arn:aws:iam::111111111111:role/CatalogRole" "order-service") = none ∧
    TMCP.readLocation
      { locType := CloudFormationStackLocationType
        target := mkTarget "111111111111"
          "arn:aws:iam::111111111111:role/CatalogRole" "order-service" } c10World =
      .error .jsonParse :=
  ⟨c10_provider_targets_fail_json_parse.2 "111111111111"
      "arn:aws:iam::111111111111:role/CatalogRole" "order-service",
   c10_provider_targets_fail_json_parse.1 _ c10World
     (c10_provider_targets_fail_json_parse.2 "111111111111"
       "arn:aws:iam::111111111111:role/CatalogRole" "order-service")⟩

/-! ## Claim C6 -/

/-- Claim C6: a scan failure inside one account's pipeline is caught at that
account's boundary — the cycle still completes with a `full` mutation, and
every entity produced by every other account is contained in it. -/
theorem c6_per_account_fault_isolation :
    ∀ (regions : List String) (destinationRoleName : String) (w : ProviderWorld)
      (accounts : List AwsAccount) (j : String),
      w.listing = .ok accounts →
      (∃ a ∈ accounts, a.Id = j ∧ ∃ r ∈ regions, ((w.scan j) r).failed = true) →
      ∃ m, refresh regions destinationRoleName w = .ok m ∧ m.mtype = "full" ∧
        ∀ a ∈ accounts, a.Id ≠ j →
          ∀ e ∈ scanAccount regions destinationRoleName w a, e ∈ m.entities := by
  intro regions d w accounts j hlist _hfail
  refine ⟨{ mtype := "full"
            entities := (accounts.map (scanAccount regions d w)).flatten },
    by simp [refresh, hlist], rfl, ?_⟩
  intro a ha _hne e he
  exact List.mem_flatten.mpr ⟨scanAccount regions d w a, List.mem_map_of_mem _ ha, he⟩

/-- A world with two accounts where scanning the first account raises and the
second account has one in-scope stack. -/
def c6World : ProviderWorld :=
  { listing := .ok [{ Id := "111111111111" }, { Id := "222222222222" }]
    scan := fun accountId _ =>
      if accountId == "111111111111" then { pages := [], failed := true }
      else
        { pages := [[{ StackName := "order-service", StackStatus := .UPDATE_COMPLETE }]]
          failed := false } }

/-- Witness for `c6_per_account_fault_isolation`: account `111111111111`
fails, and the conclusion holds for the two-account world. -/
theorem c6_per_account_fault_isolation_witness :
    c6World.listing = .ok [{ Id := "111111111111" }, { Id := "222222222222" }] ∧
    (∃ a ∈ [({ Id := "111111111111" } : AwsAccount), { Id := "222222222222" }],
      a.Id = "111111111111" ∧
      ∃ r ∈ ["eu-west-1"], ((c6World.scan "111111111111") r).failed = true) ∧
    (∃ m, refresh ["eu-west-1"] "CatalogRole" c6World = .ok m ∧ m.mtype = "full" ∧
      ∀ a ∈ [({ Id := "111111111111" } : AwsAccount), { Id := "222222222222" }],
        a.Id ≠ "111111111111" →
        ∀ e ∈ scanAccount ["eu-west-1"] "CatalogRole" c6World a, e ∈ m.entities) := by
  have hfail : ∃ a ∈ [({ Id := "111111111111" } : AwsAccount), { Id := "222222222222" }],
      a.Id = "111111111111" ∧
      ∃ r ∈ ["eu-west-1"], ((c6World.scan "111111111111") r).failed = true :=
    ⟨{ Id := "111111111111" }, by simp, rfl, "eu-west-1", by simp, rfl⟩
  exact ⟨rfl, hfail,
    c6_per_account_fault_isolation ["eu-west-1"] "CatalogRole" c6World _ "111111111111"
      rfl hfail⟩

/-! ## Claim C3 -/

/-- A processor world with two lambda resources declaring the same runtime. -/
def c3World : CfnWorld :=
  { describeStack := some
      { StackId := "arn:aws:cloudformation:eu-west-1:111111111111:stack/shop-api/5678"
        StackStatus := .UPDATE_COMPLETE
        Tags := [] }
    templateBody := some "Resources: present"
    parsedResources :=
      [("OrderFn", { Runtime := "nodejs18.x" }), ("BillingFn", { Runtime := "nodejs18.x" })]
    resourcePages :=
      [[{ LogicalResourceId := "OrderFn", PhysicalResourceId := "shop-api-OrderFn-1A"
          ResourceType := "AWS::Lambda::Function" },
        { LogicalResourceId := "BillingFn", PhysicalResourceId := "shop-api-BillingFn-2B"
          ResourceType := "AWS::Lambda::Function" }]] }

/-- Claim C3, counterexample: for two function resources declaring runtime
`nodejs18.x`, the builder emits TWO RuntimeEntity values with that runtime's
identity — it performs no deduplication before emission, contrary to the
claim that exactly one is emitted. -/
theorem c3_runtime_entity_emitted_twice :
    ((TMCP2.run (some "eu-west-1") "arn:aws:iam::111111111111:role/CatalogRole"
        (some "111111111111") (some "shop-api") c3World).1.filter
      (fun e => e.specType == "aws-lambda-runtime")).map Entity.name =
    ["aws-lambda-runtime-nodejs18.x", "aws-lambda-runtime-nodejs18.x"] :=
  rfl

theorem runtimeEntity_of_mem_emitResources
    {region : Option String} {roleArn : String} {accountId stackName : Option String}
    {sd : StackDetail} {tpl : List (String × TemplateResource)} :
    ∀ (rs : List ResourceSummary) (e : Entity),
      e ∈ (TMCP2.emitResources region roleArn accountId stackName sd tpl rs).1 →
      e.specType = "aws-lambda-runtime" →
      ∃ rt, e = TMCP2.mkRuntimeEntity rt := by
  intro rs
  induction rs with
  | nil => intro e he _; simp [TMCP2.emitResources] at he
  | cons res rest ih =>
    intro e he hrt
    rw [TMCP2.emitResources] at he
    split at he
    · split at he
      · simp at he
      · rcases List.mem_cons.mp he with h1 | h2
        · exact ⟨_, h1⟩
        · rcases List.mem_cons.mp h2 with h3 | h4
          · rw [h3] at hrt
            simp [TMCP2.mkFunctionEntity] at hrt
          · exact ih e h4 hrt
    · exact ih e he hrt

theorem runtimeEntity_of_mem_emitPages
    {region : Option String} {roleArn : String} {accountId stackName : Option String}
    {sd : StackDetail} {tpl : List (String × TemplateResource)} :
    ∀ (pages : List (List ResourceSummary)) (e : Entity),
      e ∈ (TMCP2.emitPages region roleArn accountId stackName sd tpl pages).1 →
      e.specType = "aws-lambda-runtime" →
      ∃ rt, e = TMCP2.mkRuntimeEntity rt := by
  intro pages
  induction pages with
  | nil => intro e he _; simp [TMCP2.emitPages] at he
  | cons p ps ih =>
    intro e he hrt
    rw [TMCP2.emitPages] at he
    split at he
    · rcases List.mem_append.mp he with h1 | h2
      · exact runtimeEntity_of_mem_emitResources p e h1 hrt
      · exact ih e h2 hrt
    · exact runtimeEntity_of_mem_emitResources p e he hrt

theorem runtimeEntity_of_mem_run
    {region : Option String} {roleArn : String} {accountId stackName : Option String}
    {w : CfnWorld} :
    ∀ e : Entity,
      e ∈ (TMCP2.run region roleArn accountId stackName w).1 →
      e.specType = "aws-lambda-runtime" →
      ∃ rt, e = TMCP2.mkRuntimeEntity rt := by
  intro e he hrt
  rw [TMCP2.run] at he
  split at he
  · simp at he
  · split at he
    · simp at he
    · split at he
      · simp at he
      · split at he
        · simp at he
        · exact runtimeEntity_of_mem_emitPages _ e he hrt

/-- Claim C3 as amended: the builder does not deduplicate — it emits one
RuntimeEntity per function resource — but all RuntimeEntity emissions
carrying the same identity are equal as entities, across any two
`readLocation` runs (the same or different stacks, accounts, regions and
worlds), so the cycle's final snapshot keyed by entity identity contains
exactly one RuntimeEntity per declared runtime string (the duplicate
identical emissions are harmless and collapse at the sink). -/
theorem c3_runtime_entities_same_identity_equal :
    ∀ (region₁ : Option String) (roleArn₁ : String)
      (accountId₁ stackName₁ : Option String) (w₁ : CfnWorld)
      (region₂ : Option String) (roleArn₂ : String)
      (accountId₂ stackName₂ : Option String) (w₂ : CfnWorld) (e₁ e₂ : Entity),
      e₁ ∈ (TMCP2.run region₁ roleArn₁ accountId₁ stackName₁ w₁).1 →
      e₂ ∈ (TMCP2.run region₂ roleArn₂ accountId₂ stackName₂ w₂).1 →
      e₁.specType = "aws-lambda-runtime" → e₂.specType = "aws-lambda-runtime" →
      e₁.name = e₂.name → e₁ = e₂ := by
  intro region₁ roleArn₁ accountId₁ stackName₁ w₁ region₂ roleArn₂ accountId₂
    stackName₂ w₂ e₁ e₂ h₁ h₂ hs₁ hs₂ hn
  obtain ⟨r₁, rfl⟩ := runtimeEntity_of_mem_run e₁ h₁ hs₁
  obtain ⟨r₂, rfl⟩ := runtimeEntity_of_mem_run e₂ h₂ hs₂
  have : ("aws-lambda-runtime-" ++ r₁ : String) = "aws-lambda-runtime-" ++ r₂ := hn
  rw [string_append_cancel_left this]

/-- A second processor world (a different stack in a different account)
whose single lambda resource declares the same runtime `nodejs18.x`. -/
def c3WorldB : CfnWorld :=
  { describeStack := some
      { StackId := "arn:aws:cloudformation:eu-west-2:222222222222:stack/billing-api/9999"
        StackStatus := .CREATE_COMPLETE
        Tags := [] }
    templateBody := some "Resources: present"
    parsedResources := [("PayFn", { Runtime := "nodejs18.x" })]
    resourcePages :=
      [[{ LogicalResourceId := "PayFn", PhysicalResourceId := "billing-api-PayFn-3C"
          ResourceType := "AWS::Lambda::Function" }]] }

/-- Witness for `c3_runtime_entities_same_identity_equal` across two
different stacks in different accounts/regions: the `nodejs18.x` runtime
entity emitted while reading `shop-api` and the one emitted while reading
`billing-api` are the same entity. -/
theorem c3_runtime_entities_same_identity_equal_witness :
    TMCP2.mkRuntimeEntity "nodejs18.x" ∈
      (TMCP2.run (some "eu-west-1") "arn:aws:iam::111111111111:role/CatalogRole"
        (some "111111111111") (some "shop-api") c3World).1 ∧
    TMCP2.mkRuntimeEntity "nodejs18.x" ∈
      (TMCP2.run (some "eu-west-2") "arn:aws:iam::222222222222:role/CatalogRole"
        (some "222222222222") (some "billing-api") c3WorldB).1 ∧
    (TMCP2.mkRuntimeEntity "nodejs18.x").specType = "aws-lambda-runtime" ∧
    TMCP2.mkRuntimeEntity "nodejs18.x" = TMCP2.mkRuntimeEntity "nodejs18.x" := by
  have hmem₁ : TMCP2.mkRuntimeEntity "nodejs18.x" ∈
      (TMCP2.run (some "eu-west-1") "arn:aws:iam::111111111111:role/CatalogRole"
        (some "111111111111") (some "shop-api") c3World).1 :=
    List.Mem.head _
  have hmem₂ : TMCP2.mkRuntimeEntity "nodejs18.x" ∈
      (TMCP2.run (some "eu-west-2") "arn:aws:iam::222222222222:role/CatalogRole"
        (some "222222222222") (some "billing-api") c3WorldB).1 :=
    List.Mem.head _
  exact ⟨hmem₁, hmem₂, rfl,
    c3_runtime_entities_same_identity_equal (some "eu-west-1")
      "arn:aws:iam::111111111111:role/CatalogRole" (some "111111111111")
      (some "shop-api") c3World (some "eu-west-2")
      "arn:aws:iam::222222222222:role/CatalogRole" (some "222222222222")
      (some "billing-api") c3WorldB _ _ hmem₁ hmem₂ rfl rfl rfl⟩

/-! ## Claim C9 -/

theorem pool_invariant (accounts : List Nat) (s : PoolState)
    (h : PoolReach (initPool accounts) s) :
    s.running.length ≤ pMapConcurrency ∧
    (s.pending ++ (s.running ++ s.done)).Perm accounts ∧
    (s.submitted = true → s.pending = [] ∧ s.running = []) := by
  induction h with
  | refl => exact ⟨by simp [initPool], by simp [initPool], by simp [initPool]⟩
  | tail hreach hstep ih =>
    obtain ⟨ihlen, ihperm, ihsub⟩ := ih
    cases hstep with
    | start a pending running done hlt =>
      refine ⟨by simp only [List.length_cons]; omega, ?_, by simp⟩
      simp only at ihperm ⊢
      have e1 : pending ++ ((a :: running) ++ done) =
          pending ++ (a :: (running ++ done)) := by simp
      rw [e1]
      exact List.perm_middle.trans ihperm
    | finish a pending running done hmem =>
      refine ⟨?_, ?_, by simp⟩
      · simp only
        exact le_trans (List.Sublist.length_le (List.erase_sublist a running)) ihlen
      · simp only at ihperm ⊢
        have h1 : ((running.erase a) ++ (a :: done)).Perm
            (a :: (running.erase a ++ done)) := List.perm_middle
        have h3 : ((a :: running.erase a) ++ done).Perm (running ++ done) :=
          List.Perm.append_right _ (List.perm_cons_erase hmem).symm
        exact (List.Perm.append_left pending (h1.trans h3)).trans ihperm
    | submit done =>
      exact ⟨ihlen, ihperm, fun _ => ⟨rfl, rfl⟩⟩

/-- Claim C9: in every state the `pMap` scheduler can reach from the start
of a cycle, at most 3 account-scan tasks are running — whatever the number
of accounts the listing returned — and once the mutation has been submitted
every account's task has settled. -/
theorem c9_bounded_concurrency :
    ∀ (accounts : List Nat) (s : PoolState),
      PoolReach (initPool accounts) s →
      s.running.length ≤ 3 ∧
      (s.submitted = true → ∀ a ∈ accounts, a ∈ s.done) := by
  intro accounts s h
  obtain ⟨hlen, hperm, hsub⟩ := pool_invariant accounts s h
  refine ⟨hlen, fun hs a ha => ?_⟩
  obtain ⟨hp, hr⟩ := hsub hs
  rw [hp, hr] at hperm
  simp only [List.nil_append] at hperm
  exact hperm.mem_iff.mpr ha

/-- The scheduler state after starting the first of four account tasks. -/
def c9State : PoolState :=
  { pending := [1, 2, 3], running := [0], done := [], submitted := false }

/-- Witness for `c9_bounded_concurrency`: after starting the first of four
account tasks, one task runs (≤ 3) and the mutation is unsubmitted. -/
theorem c9_bounded_concurrency_witness :
    PoolReach (initPool [0, 1, 2, 3]) c9State ∧
    (c9State.running.length ≤ 3 ∧
      (c9State.submitted = true → ∀ a ∈ [0, 1, 2, 3], a ∈ c9State.done)) := by
  have hreach : PoolReach (initPool [0, 1, 2, 3]) c9State :=
    PoolReach.tail PoolReach.refl (PoolStep.start 0 [1, 2, 3] [] [] (by decide))
  exact ⟨hreach, c9_bounded_concurrency [0, 1, 2, 3] c9State hreach⟩

end SvcCat
